import Mathlib

/-
Verification development for the CircumSolarSystem repository.

Shallow embedding of the per-frame simulation core of the repository:
  - orbit kinematics of the celestial bodies (index.js, animate);
  - the ship position advance and rotation smoothing (index.js, animate);
  - the trailing camera follow logic (index.js, animate);
  - the exhaust particle system (src/getShipExhaust.js), embedded over the
    rationals so that concrete runs are decidable;
  - the sun eruption particle system (src/createSolarSystem.js), embedded over
    the reals because its respawn branch uses trigonometry.

JavaScript numbers are modelled as exact rationals or reals; Math.random()
draws are modelled as an explicit stream of values, threaded by index.
Three.js library primitives that the repository merely calls (quaternion
slerp, the look-at matrix to quaternion conversion) are taken as parameters
of the embedded step functions; everything written in the repository itself
is translated definition by definition.
-/

set_option maxHeartbeats 1000000

/-! ## Real-valued vectors -/

structure Vec3 where
  x : ℝ
  y : ℝ
  z : ℝ

/-- Euclidean length of a vector, as `THREE.Vector3.length()` computes it. -/
noncomputable def Vec3.length (v : Vec3) : ℝ :=
  Real.sqrt (v.x * v.x + v.y * v.y + v.z * v.z)

/-! ## Orbit kinematics (index.js, animate, lines 404-484)

Each planet system's x and z coordinates are reassigned every frame from the
current wall-clock milliseconds `now = Date.now()`; the y coordinate is 0 from
construction (`createSolarSystem.js` sets every planet system position to
`(AU_SCALE * <body>_AU, 0, 0)`) and is never written again. -/

noncomputable def AU_SCALE : ℝ := 400
noncomputable def MERCURY_AU : ℝ := 0.39
noncomputable def VENUS_AU : ℝ := 0.72
noncomputable def EARTH_AU : ℝ := 1.0
noncomputable def MARS_AU : ℝ := 1.52
noncomputable def JUPITER_AU : ℝ := 5.2
noncomputable def SATURN_AU : ℝ := 9.54
noncomputable def URANUS_AU : ℝ := 19.2
noncomputable def NEPTUNE_AU : ℝ := 30.06
noncomputable def PLUTO_AU : ℝ := 39.5
noncomputable def EARTH_RADIUS : ℝ := 10

/-- Mercury per-frame orbit position: note the source multiplies by an extra
`* 5 / 15` ("from a 5x blowup to one third of the original"). -/
noncomputable def mercuryOrbitPos (now : ℝ) : Vec3 :=
  ⟨Real.cos (now * 0.0002) * AU_SCALE * MERCURY_AU * 5 / 15, 0,
   Real.sin (now * 0.0002) * AU_SCALE * MERCURY_AU * 5 / 15⟩

noncomputable def venusOrbitPos (now : ℝ) : Vec3 :=
  ⟨Real.cos (now * 0.00015) * AU_SCALE * VENUS_AU, 0,
   Real.sin (now * 0.00015) * AU_SCALE * VENUS_AU⟩

noncomputable def earthOrbitPos (now : ℝ) : Vec3 :=
  ⟨Real.cos (now * 0.0001) * AU_SCALE * EARTH_AU, 0,
   Real.sin (now * 0.0001) * AU_SCALE * EARTH_AU⟩

/-- Moon orbit, relative to the Earth system: radius `EARTH_RADIUS * 2.5`. -/
noncomputable def moonOrbitPos (now : ℝ) : Vec3 :=
  ⟨Real.cos (now * 0.0005) * EARTH_RADIUS * 2.5, 0,
   Real.sin (now * 0.0005) * EARTH_RADIUS * 2.5⟩

noncomputable def marsOrbitPos (now : ℝ) : Vec3 :=
  ⟨Real.cos (now * 0.00008) * AU_SCALE * MARS_AU, 0,
   Real.sin (now * 0.00008) * AU_SCALE * MARS_AU⟩

noncomputable def jupiterOrbitPos (now : ℝ) : Vec3 :=
  ⟨Real.cos (now * 0.00004) * AU_SCALE * JUPITER_AU, 0,
   Real.sin (now * 0.00004) * AU_SCALE * JUPITER_AU⟩

noncomputable def saturnOrbitPos (now : ℝ) : Vec3 :=
  ⟨Real.cos (now * 0.00003) * AU_SCALE * SATURN_AU, 0,
   Real.sin (now * 0.00003) * AU_SCALE * SATURN_AU⟩

noncomputable def uranusOrbitPos (now : ℝ) : Vec3 :=
  ⟨Real.cos (now * 0.00002) * AU_SCALE * URANUS_AU, 0,
   Real.sin (now * 0.00002) * AU_SCALE * URANUS_AU⟩

noncomputable def neptuneOrbitPos (now : ℝ) : Vec3 :=
  ⟨Real.cos (now * 0.000015) * AU_SCALE * NEPTUNE_AU, 0,
   Real.sin (now * 0.000015) * AU_SCALE * NEPTUNE_AU⟩

noncomputable def plutoOrbitPos (now : ℝ) : Vec3 :=
  ⟨Real.cos (now * 0.00001) * AU_SCALE * PLUTO_AU, 0,
   Real.sin (now * 0.00001) * AU_SCALE * PLUTO_AU⟩

/-! ## Ship controls and the per-frame ship position advance
(index.js, animate, lines 492-587) -/

structure ShipControls where
  pitchUp : Bool
  pitchDown : Bool
  bankLeft : Bool
  bankRight : Bool
  boost : Bool
  stop : Bool
  speed : ℝ
  maxBankAngle : ℝ

/-- Add a scaled vector, as `THREE.Vector3.addScaledVector`. -/
def Vec3.addScaled (v w : Vec3) (s : ℝ) : Vec3 :=
  ⟨v.x + w.x * s, v.y + w.y * s, v.z + w.z * s⟩

/-- Float effect amplitude: 0 while a pitch key is held, else 2. -/
def floatAmount (c : ShipControls) : ℝ :=
  if c.pitchUp || c.pitchDown then 0 else 2

/-- Per-frame ship position update from the animate loop, in source order:
the float effect overwrites `position.y` unconditionally, then (unless
`stop`) the ship translates forward by `speed`, and the bank branches add the
sideways offsets `speed * 0.05` and `speed * -0.05`. `direction` and
`rightDirection` are the ship basis vectors the source derives from the world
matrix right before this block. -/
noncomputable def shipAdvancePos (c : ShipControls) (now : ℝ)
    (pos direction rightDirection : Vec3) : Vec3 :=
  let p0 : Vec3 := ⟨pos.x, Real.sin (now * 0.001) * floatAmount c, pos.z⟩
  let p1 := if !c.stop then p0.addScaled direction c.speed else p0
  let p2 := if c.bankLeft && !c.stop then
    p1.addScaled rightDirection (c.speed * 0.05) else p1
  let p3 := if c.bankRight && !c.stop then
    p2.addScaled rightDirection (c.speed * -0.05) else p2
  p3

/-! ## Rotation smoothing (index.js, animate, lines 528-624)

Quaternions and the axis-angle constructor and Hamilton product are
translated from the three.js primitives the source calls; `slerp` and the
look-at-matrix-to-quaternion conversion used to build the level orientation
are three.js library functions and are taken as parameters. -/

structure Quat where
  x : ℝ
  y : ℝ
  z : ℝ
  w : ℝ

/-- Quaternion product `a * b`, from `THREE.Quaternion.multiplyQuaternions`. -/
def Quat.mul (a b : Quat) : Quat :=
  ⟨a.x * b.w + a.w * b.x + a.y * b.z - a.z * b.y,
   a.y * b.w + a.w * b.y + a.z * b.x - a.x * b.z,
   a.z * b.w + a.w * b.z + a.x * b.y - a.y * b.x,
   a.w * b.w - a.x * b.x - a.y * b.y - a.z * b.z⟩

/-- Axis-angle quaternion, from `THREE.Quaternion.setFromAxisAngle`. -/
noncomputable def setFromAxisAngle (axis : Vec3) (angle : ℝ) : Quat :=
  ⟨axis.x * Real.sin (angle / 2), axis.y * Real.sin (angle / 2),
   axis.z * Real.sin (angle / 2), Real.cos (angle / 2)⟩

/-- Target orientation built by premultiplying the active small-angle
rotations onto the current orientation, in source order: pitch up (+0.02
about the right axis), pitch down (-0.02), bank left (roll `-min(0.05,
maxBankAngle)` about forward then yaw +0.2 about world up), bank right (the
mirrored signs). Each branch is guarded by its flag and by `!stop`. -/
noncomputable def targetRotation (c : ShipControls) (cur : Quat)
    (direction rightDirection : Vec3) : Quat :=
  let t0 := cur
  let t1 := if c.pitchUp && !c.stop then
    Quat.mul (setFromAxisAngle rightDirection 0.02) t0 else t0
  let t2 := if c.pitchDown && !c.stop then
    Quat.mul (setFromAxisAngle rightDirection (-0.02)) t1 else t1
  let t3 := if c.bankLeft && !c.stop then
    Quat.mul (setFromAxisAngle ⟨0, 1, 0⟩ 0.2)
      (Quat.mul (setFromAxisAngle direction (-(min 0.05 c.maxBankAngle))) t2)
    else t2
  let t4 := if c.bankRight && !c.stop then
    Quat.mul (setFromAxisAngle ⟨0, 1, 0⟩ (-0.2))
      (Quat.mul (setFromAxisAngle direction (min 0.05 c.maxBankAngle)) t3)
    else t3
  t4

/-- The `needRotationUpdate` flag: set exactly when one of the four rotation
branches fired, i.e. when a rotation key is held and `stop` is false. -/
def needRotationUpdate (c : ShipControls) : Bool :=
  (c.pitchUp && !c.stop) || (c.pitchDown && !c.stop) ||
  (c.bankLeft && !c.stop) || (c.bankRight && !c.stop)

/-- Per-frame orientation update: slerp toward the composed target by 0.1
when a rotation input is active, else slerp toward the level orientation
(rebuilt from the current forward direction and world up by
`Matrix4.lookAt` and `setFromRotationMatrix`, here the parameter
`levelQuat`) by 0.02. -/
noncomputable def rotationStep (slerp : Quat → Quat → ℝ → Quat)
    (levelQuat : Vec3 → Vec3 → Quat) (c : ShipControls) (cur : Quat)
    (direction rightDirection : Vec3) : Quat :=
  if needRotationUpdate c then
    slerp cur (targetRotation c cur direction rightDirection) 0.1
  else
    slerp cur (levelQuat direction ⟨0, 1, 0⟩) 0.02

/-! ## Camera follow (index.js, animate, lines 626-640) -/

/-- Transform by a column-major 4x4 matrix with perspective divide, from
`THREE.Vector3.applyMatrix4`. -/
noncomputable def Vec3.applyMatrix4 (v : Vec3) (e : Fin 16 → ℝ) : Vec3 :=
  let w := 1 / (e 3 * v.x + e 7 * v.y + e 11 * v.z + e 15)
  ⟨(e 0 * v.x + e 4 * v.y + e 8 * v.z + e 12) * w,
   (e 1 * v.x + e 5 * v.y + e 9 * v.z + e 13) * w,
   (e 2 * v.x + e 6 * v.y + e 10 * v.z + e 14) * w⟩

/-- Componentwise lerp, from `THREE.Vector3.lerp`. -/
def Vec3.lerp (v target : Vec3) (alpha : ℝ) : Vec3 :=
  ⟨v.x + (target.x - v.x) * alpha,
   v.y + (target.y - v.y) * alpha,
   v.z + (target.z - v.z) * alpha⟩

/-- Fixed camera offset relative to the ship. -/
def cameraOffset : Vec3 := ⟨0, 1, 2⟩

/-- Camera follow step: the target is the fixed offset transformed by the
ship's world matrix; boosting lerps toward it by 0.05, otherwise the camera
position is copied from it; the camera then looks at the ship position
(returned as the second component). -/
noncomputable def cameraFollow (boost : Bool) (camPos : Vec3)
    (shipMatrixWorld : Fin 16 → ℝ) (shipPos : Vec3) : Vec3 × Vec3 :=
  let targetCameraPosition := cameraOffset.applyMatrix4 shipMatrixWorld
  (if boost then camPos.lerp targetCameraPosition 0.05
   else targetCameraPosition, shipPos)

/-! ## Exhaust particle system (src/getShipExhaust.js)

Embedded over the rationals: the update is pure rational arithmetic
(`Math.min`, `Math.max`, `Math.ceil`, comparisons), so every concrete run is
decidable. Math.random() draws are an explicit stream `rng : Nat → ℚ`
threaded by index in source call order. -/

structure Vec3Q where
  x : ℚ
  y : ℚ
  z : ℚ
deriving DecidableEq

structure ExParticle where
  pos : Vec3Q
  vel : Vec3Q
  life : ℚ
  maxLife : ℚ
  size : ℚ
  color : Vec3Q
  emitter : Bool
deriving DecidableEq

/-- Exhaust configuration (size/lifetime/speed/spread ranges); index.js
passes `count 100, size 0.025..0.05, lifetime 0.5..0.6, speed 0.2..0.6,
spread (0.05, 0.05, 0.08)`. -/
structure ExConfig where
  sizeMin : ℚ
  sizeMax : ℚ
  lifeMin : ℚ
  lifeMax : ℚ
  speedMin : ℚ
  speedMax : ℚ
  spreadX : ℚ
  spreadY : ℚ
  spreadZ : ℚ
deriving DecidableEq

def shipExhaustConfig : ExConfig :=
  { sizeMin := 1/40, sizeMax := 1/20, lifeMin := 1/2, lifeMax := 3/5,
    speedMin := 1/5, speedMax := 3/5, spreadX := 1/20, spreadY := 1/20,
    spreadZ := 2/25 }

/-- Spawn budget computed at the top of `update`:
`isBoost ? min(3, ceil(shipVelocity*1)) : min(1, ceil(shipVelocity*0.5))`. -/
def particlesPerEmitter (shipVelocity : ℚ) (isBoost : Bool) : ℤ :=
  if isBoost then min 3 ⌈shipVelocity * 1⌉ else min 1 ⌈shipVelocity * (1/2)⌉

/-- Size multiplier easing curve keyed on `lifeRatio` (the flooring by 0 is
applied at the use site, as in the source). -/
def sizeMultiplier (lifeRatio : ℚ) : ℚ :=
  if lifeRatio < 1/5 then lifeRatio * 5 else 1 - (lifeRatio - 1/5) * (5/4)

/-- Respawn of a dead particle at its emitter position (the branch at
getShipExhaust.js lines 143-183): velocity from the ship basis when one is
supplied, else the default back-axis fallback; life reset to 0; a fresh
random maxLife; color reset to cyan. Returns the particle and the advanced
random stream index (four draws either way). -/
def respawnParticle (cfg : ExConfig) (shipVelocity : ℚ)
    (dirs : Option (Vec3Q × Vec3Q × Vec3Q)) (emitterPos : Vec3Q)
    (rng : ℕ → ℚ) (k : ℕ) (p : ExParticle) : ExParticle × ℕ :=
  let speedFactor := max (4/5) shipVelocity
  let vel : Vec3Q :=
    match dirs with
    | some (backwardDir, rightDir, upDir) =>
      let randomRight := (rng k - 1/2) * cfg.spreadX
      let randomUp := (rng (k+1) - 1/2) * cfg.spreadY
      let randomBack := rng (k+2) * cfg.speedMax * speedFactor + cfg.speedMin
      ⟨backwardDir.x * randomBack + rightDir.x * randomRight + upDir.x * randomUp,
       backwardDir.y * randomBack + rightDir.y * randomRight + upDir.y * randomUp,
       backwardDir.z * randomBack + rightDir.z * randomRight + upDir.z * randomUp⟩
    | none =>
      ⟨(rng k - 1/2) * cfg.spreadX,
       (rng (k+1) - 1/2) * cfg.spreadY,
       rng (k+2) * cfg.speedMax * speedFactor + cfg.speedMin⟩
  let newMaxLife := rng (k+3) * (cfg.lifeMax - cfg.lifeMin) + cfg.lifeMin
  ({ p with pos := emitterPos, vel := vel, life := 0, maxLife := newMaxLife,
            color := ⟨0, 1, 1⟩ }, k + 4)

/-- Live-particle advance (the else branch at getShipExhaust.js lines
185-222): integrate position, age by the (already clamped) delta, apply the
size easing floored at 0, and darken the color past half life. -/
def advanceParticle (delta : ℚ) (p : ExParticle) : ExParticle :=
  let pos : Vec3Q := ⟨p.pos.x + p.vel.x * delta, p.pos.y + p.vel.y * delta,
                      p.pos.z + p.vel.z * delta⟩
  let life := p.life + delta
  let lifeRatio := life / p.maxLife
  let size := p.size * max 0 (sizeMultiplier lifeRatio)
  let color : Vec3Q :=
    if lifeRatio > 1/2 then
      let colorRatio := (lifeRatio - 1/2) * 2
      ⟨0, max 0 (1 - colorRatio * (4/5)), max (1/5) (1 - colorRatio * (1/2))⟩
    else p.color
  { p with pos := pos, life := life, size := size, color := color }

/-- Bundled per-call inputs of the exhaust update after the delta clamp and
budget computation: clamped delta, ship velocity, optional ship basis, the
two emitter anchors, the budget, and the random stream. -/
structure ExArgs where
  cfg : ExConfig
  delta : ℚ
  shipVelocity : ℚ
  dirs : Option (Vec3Q × Vec3Q × Vec3Q)
  emitterL : Vec3Q
  emitterR : Vec3Q
  budget : ℤ
  rng : ℕ → ℚ

/-- One loop iteration of the update over particle `p` with the shared
spawned-this-call counter `cnt` and random stream index `k`. Returns the new
particle, whether it was respawned, and the new counter and stream index. -/
def stepParticle (A : ExArgs) (p : ExParticle) (cnt k : ℕ) :
    ExParticle × Bool × ℕ × ℕ :=
  if p.maxLife ≤ p.life then
    if (cnt : ℤ) < A.budget then
      let r := respawnParticle A.cfg A.shipVelocity A.dirs
        (if p.emitter then A.emitterR else A.emitterL) A.rng k p
      (r.1, true, cnt + 1, r.2)
    else (p, false, cnt, k)
  else (advanceParticle A.delta p, false, cnt, k)

/-- The update loop over the whole pool, threading the shared counter and
the random stream index left to right. -/
def exhaustGo (A : ExArgs) :
    List ExParticle → ℕ → ℕ → List (ExParticle × Bool) × ℕ × ℕ
  | [], cnt, k => ([], cnt, k)
  | p :: ps, cnt, k =>
    let r := stepParticle A p cnt k
    let rest := exhaustGo A ps r.2.2.1 r.2.2.2
    ((r.1, r.2.1) :: rest.1, rest.2)

/-- The exhaust `update(delta, shipVelocity, isBoost, backwardDir, rightDir,
upDir)` entry point: clamps the delta to 0.1, computes the budget, and runs
the loop. `cnt` is the `activeParticles` counter at call entry (the source
resets it to 0 at the end of every call and in `clearAllParticles`, so it is
0 at the start of every call). -/
def exhaustUpdate (cfg : ExConfig) (delta shipVelocity : ℚ) (isBoost : Bool)
    (dirs : Option (Vec3Q × Vec3Q × Vec3Q)) (emitterL emitterR : Vec3Q)
    (rng : ℕ → ℚ) (ps : List ExParticle) (cnt k : ℕ) :
    List (ExParticle × Bool) × ℕ × ℕ :=
  exhaustGo
    { cfg := cfg, delta := min delta (1/10), shipVelocity := shipVelocity,
      dirs := dirs, emitterL := emitterL, emitterR := emitterR,
      budget := particlesPerEmitter shipVelocity isBoost, rng := rng }
    ps cnt k

/-- Number of particles respawned during one update call. -/
def countRespawns (out : List (ExParticle × Bool)) : ℕ :=
  (out.filter (fun q => q.2)).length

/-- The `clearAllParticles` reset: every particle's life is forced one past
its maxLife and its position snaps to its emitter anchor. -/
def clearAllParticles (emitterL emitterR : Vec3Q) (ps : List ExParticle) :
    List ExParticle :=
  ps.map fun p =>
    { p with life := p.maxLife + 1,
             pos := if p.emitter then emitterR else emitterL }

/-! ## Sun eruption particle system (src/createSolarSystem.js,
sunEruptionSystem.update, lines 741-782)

Embedded over the reals: the respawn branch draws a random point on the
radius-100 sphere through `sin`, `cos` and `acos`. Note the update uses the
raw frame delta: there is no clamp in this subsystem. -/

structure ErParticle where
  pos : Vec3
  vel : Vec3
  lifeCur : ℝ
  lifeMax : ℝ
  size : ℝ

/-- One loop iteration of `sunEruptionSystem.update` for one particle:
decrement the remaining life by the raw delta; on expiry respawn at a random
spherical point of radius 100 with radial velocity `0.01 * position`, a
fresh lifetime `1 + random()*3` and a fresh size; otherwise integrate the
position by `velocity * delta * 15` and set the size to
`(2 + random()*3) * lifeRatio`. Returns the particle and the advanced
random stream index. -/
noncomputable def eruptionStepParticle (delta : ℝ) (rng : ℕ → ℝ)
    (p : ErParticle) (k : ℕ) : ErParticle × ℕ :=
  let cur := p.lifeCur - delta
  if cur ≤ 0 then
    let theta := rng k * Real.pi * 2
    let phi := Real.arccos (2 * rng (k+1) - 1)
    let px := 100 * Real.sin phi * Real.cos theta
    let py := 100 * Real.sin phi * Real.sin theta
    let pz := 100 * Real.cos phi
    let newMax := 1 + rng (k+2) * 3
    let newSize := 2 + rng (k+3) * 3
    ({ pos := ⟨px, py, pz⟩, vel := ⟨px * 0.01, py * 0.01, pz * 0.01⟩,
       lifeCur := newMax, lifeMax := newMax, size := newSize }, k + 4)
  else
    let pos : Vec3 := ⟨p.pos.x + p.vel.x * delta * 15,
                       p.pos.y + p.vel.y * delta * 15,
                       p.pos.z + p.vel.z * delta * 15⟩
    let lifeRatio := cur / p.lifeMax
    let newSize := (2 + rng k * 3) * lifeRatio
    ({ p with pos := pos, lifeCur := cur, size := newSize }, k + 1)

/-- The eruption update loop over the whole pool, threading the random
stream index. -/
noncomputable def eruptionUpdate (delta : ℝ) (rng : ℕ → ℝ) :
    List ErParticle → ℕ → List ErParticle × ℕ
  | [], k => ([], k)
  | p :: ps, k =>
    let r := eruptionStepParticle delta rng p k
    let rest := eruptionUpdate delta rng ps r.2
    (r.1 :: rest.1, rest.2)

/-! ## Remaining definitions: the real-valued size easing curve and sample
values used by the concrete witnesses -/

/-- Size multiplier easing curve over the reals, translated from the same
source lines as `sizeMultiplier` (getShipExhaust.js lines 197-204), for the
continuity statement. -/
noncomputable def sizeMultiplierR (lifeRatio : ℝ) : ℝ :=
  if lifeRatio < 0.2 then lifeRatio * 5 else 1 - (lifeRatio - 0.2) * 1.25

/-- A particle is live when its age has not reached its maxAge. -/
def isLive (p : ExParticle) : Bool := p.life < p.maxLife

/-- Degenerate random stream over the rationals. -/
def zeroRngQ : ℕ → ℚ := fun _ => 0

/-- Degenerate random stream over the reals. -/
def zeroRng : ℕ → ℝ := fun _ => 0

/-- Sample exhaust particle: freshly spawned, half-second lifetime. -/
def sampleParticle : ExParticle :=
  { pos := ⟨0, 0, 0⟩, vel := ⟨0, 0, 2/5⟩, life := 0, maxLife := 1/2,
    size := 1/20, color := ⟨0, 1, 1⟩, emitter := false }

/-- Sample exhaust particle that is already past its lifetime. -/
def deadParticle : ExParticle :=
  { sampleParticle with life := 3/2 }

/-- Sample eruption particle: alive on the sun's surface. -/
def sunParticle : ErParticle :=
  { pos := ⟨100, 0, 0⟩, vel := ⟨1, 0, 0⟩, lifeCur := 10, lifeMax := 10,
    size := 3 }

instance : Inhabited Vec3 := ⟨⟨0, 0, 0⟩⟩

instance : Inhabited ErParticle :=
  ⟨{ pos := ⟨0, 0, 0⟩, vel := ⟨0, 0, 0⟩, lifeCur := 0, lifeMax := 0,
     size := 0 }⟩

/-- Controls with the stop flag held and everything else released. -/
noncomputable def stopControls : ShipControls :=
  { pitchUp := false, pitchDown := false, bankLeft := false,
    bankRight := false, boost := false, stop := true, speed := 2/5,
    maxBankAngle := Real.pi / 6 }

/-- Controls with only the pitch-up flag held. -/
noncomputable def pitchUpControls : ShipControls :=
  { pitchUp := true, pitchDown := false, bankLeft := false,
    bankRight := false, boost := false, stop := false, speed := 2/5,
    maxBankAngle := Real.pi / 6 }

/-- A degenerate slerp function for the rotation witness. -/
def fstSlerp : Quat → Quat → ℝ → Quat := fun a _ _ => a

/-- A degenerate level-orientation function for the rotation witness. -/
def constLevel : Vec3 → Vec3 → Quat := fun _ _ => ⟨0, 0, 0, 1⟩

/-! ## Helper lemmas -/

/-- Helper: the length of `(cos a * s, 0, sin a * s)` is `s` when `s` is
non-negative, stated through defeq-friendly component hypotheses. -/
theorem length_circle (a x z s : ℝ) (hs : 0 ≤ s)
    (hx : x = Real.cos a * s) (hz : z = Real.sin a * s) :
    Vec3.length ⟨x, 0, z⟩ = s := by
  subst hx hz
  unfold Vec3.length
  have h : Real.cos a * s * (Real.cos a * s) + 0 * 0 +
      Real.sin a * s * (Real.sin a * s) =
      (Real.cos a ^ 2 + Real.sin a ^ 2) * s ^ 2 := by ring
  rw [h, Real.cos_sq_add_sin_sq, one_mul, Real.sqrt_sq hs]

/-- Helper: a point of the spherical parameterization of radius 100 has
length 100. -/
theorem length_sphere (phi theta : ℝ) :
    Vec3.length ⟨100 * Real.sin phi * Real.cos theta,
                 100 * Real.sin phi * Real.sin theta,
                 100 * Real.cos phi⟩ = 100 := by
  unfold Vec3.length
  have h : 100 * Real.sin phi * Real.cos theta *
        (100 * Real.sin phi * Real.cos theta) +
      100 * Real.sin phi * Real.sin theta *
        (100 * Real.sin phi * Real.sin theta) +
      100 * Real.cos phi * (100 * Real.cos phi) =
      (Real.sin phi ^ 2 * (Real.cos theta ^ 2 + Real.sin theta ^ 2) +
       Real.cos phi ^ 2) * 100 ^ 2 := by ring
  rw [h, Real.cos_sq_add_sin_sq, mul_one, Real.sin_sq_add_cos_sq, one_mul]
  rw [show ((100 : ℝ) ^ 2) = 100 * 100 by ring]
  exact Real.sqrt_mul_self (by norm_num)

/-! ## Loop lemmas for the exhaust update -/

/-- The update loop touches every particle exactly once. -/
theorem exhaustGo_length (A : ExArgs) :
    ∀ (ps : List ExParticle) (cnt k : ℕ),
      ((exhaustGo A ps cnt k).1).length = ps.length := by
  intro ps
  induction ps with
  | nil => intro cnt k; simp [exhaustGo]
  | cons p ps ih => intro cnt k; simp [exhaustGo, ih]

/-- The shared counter at the end of the loop is its start value plus the
number of respawns performed. -/
theorem exhaustGo_cnt (A : ExArgs) :
    ∀ (ps : List ExParticle) (cnt k : ℕ),
      (exhaustGo A ps cnt k).2.1 = cnt + countRespawns (exhaustGo A ps cnt k).1 := by
  intro ps
  induction ps with
  | nil => intro cnt k; simp [exhaustGo, countRespawns]
  | cons p ps ih =>
    intro cnt k
    by_cases hd : p.maxLife ≤ p.life
    · by_cases hc : (cnt : ℤ) < A.budget
      · simp only [exhaustGo, stepParticle, if_pos hd, if_pos hc]
        simp only [countRespawns, List.filter_cons]
        rw [ih]
        simp [countRespawns]
        omega
      · simp only [exhaustGo, stepParticle, if_pos hd, if_neg hc]
        simp only [countRespawns, List.filter_cons]
        rw [ih]
        simp [countRespawns]
    · simp only [exhaustGo, stepParticle, if_neg hd]
      simp only [countRespawns, List.filter_cons]
      rw [ih]
      simp [countRespawns]

/-- The shared counter never passes the budget: it can only grow up to
`max cnt budget`. -/
theorem exhaustGo_cnt_le (A : ExArgs) :
    ∀ (ps : List ExParticle) (cnt k : ℕ),
      ((exhaustGo A ps cnt k).2.1 : ℤ) ≤ max (cnt : ℤ) A.budget := by
  intro ps
  induction ps with
  | nil => intro cnt k; simp [exhaustGo]
  | cons p ps ih =>
    intro cnt k
    by_cases hd : p.maxLife ≤ p.life
    · by_cases hc : (cnt : ℤ) < A.budget
      · simp only [exhaustGo, stepParticle, if_pos hd, if_pos hc]
        refine le_trans (ih _ _) ?_
        have h1 : ((cnt + 1 : ℕ) : ℤ) ≤ A.budget := by push_cast; omega
        rw [max_eq_right h1]
        exact le_max_right _ _
      · simp only [exhaustGo, stepParticle, if_pos hd, if_neg hc]
        exact ih _ _
    · simp only [exhaustGo, stepParticle, if_neg hd]
      exact ih _ _

/-- Pointwise description of the loop output: the i-th output particle and
its respawn flag are produced by `stepParticle` on the i-th input particle,
at some intermediate counter and random stream index. -/
theorem exhaustGo_get (A : ExArgs) :
    ∀ (ps : List ExParticle) (cnt k i : ℕ) (p : ExParticle),
      ps[i]? = some p →
      ∃ c j, ((exhaustGo A ps cnt k).1)[i]? =
        some ((stepParticle A p c j).1, (stepParticle A p c j).2.1) := by
  intro ps
  induction ps with
  | nil => intro cnt k i p h; simp at h
  | cons q qs ih =>
    intro cnt k i p h
    cases i with
    | zero =>
      simp only [List.getElem?_cons_zero, Option.some_inj] at h
      subst h
      exact ⟨cnt, k, by simp [exhaustGo]⟩
    | succ n =>
      simp only [List.getElem?_cons_succ] at h
      obtain ⟨c, j, hc⟩ :=
        ih ((stepParticle A q cnt k).2.2.1) ((stepParticle A q cnt k).2.2.2) n p h
      exact ⟨c, j, by simpa [exhaustGo] using hc⟩

/-- When the budget is not positive, the loop respawns nothing: dead
particles are returned untouched and live ones are advanced. -/
theorem exhaustGo_budget_nonpos (A : ExArgs) (hb : A.budget ≤ 0) :
    ∀ (ps : List ExParticle) (cnt k : ℕ),
      exhaustGo A ps cnt k =
        (ps.map fun p => (if p.maxLife ≤ p.life then p
                          else advanceParticle A.delta p, false), cnt, k) := by
  intro ps
  induction ps with
  | nil => intro cnt k; simp [exhaustGo]
  | cons p ps ih =>
    intro cnt k
    by_cases hd : p.maxLife ≤ p.life
    · have hc : ¬((cnt : ℤ) < A.budget) := by omega
      simp [exhaustGo, stepParticle, if_pos hd, if_neg hc, ih]
    · simp [exhaustGo, stepParticle, if_neg hd, ih]

/-- The budget is non-negative whenever the ship velocity is. -/
theorem particlesPerEmitter_nonneg (shipVelocity : ℚ) (isBoost : Bool)
    (h : 0 ≤ shipVelocity) : 0 ≤ particlesPerEmitter shipVelocity isBoost := by
  unfold particlesPerEmitter
  have h1 : (0 : ℤ) ≤ ⌈shipVelocity⌉ := Int.ceil_nonneg h
  have h2 : (0 : ℤ) ≤ ⌈shipVelocity * 2⁻¹⌉ := Int.ceil_nonneg (by positivity)
  rcases isBoost with _ | _ <;> simp <;> omega

/-! ## Claim C1 -/

/-- C1 counterexample: at elapsed time 0, Mercury's orbital position has
length `AU_SCALE * MERCURY_AU * 5 / 15` (= 52), not `MERCURY_AU * AU_SCALE`
(= 156): the source scales Mercury's orbit by an extra factor 5/15. -/
theorem mercury_orbit_length_counterexample :
    Vec3.length (mercuryOrbitPos 0) ≠ AU_SCALE * MERCURY_AU := by
  have h : Vec3.length (mercuryOrbitPos 0) = AU_SCALE * MERCURY_AU * 5 / 15 := by
    rw [mercuryOrbitPos]
    exact length_circle (0 * 0.0002) _ _ (AU_SCALE * MERCURY_AU * 5 / 15)
      (by norm_num [AU_SCALE, MERCURY_AU]) (by ring) (by ring)
  rw [h]
  norm_num [AU_SCALE, MERCURY_AU]

/-- C1 amended: every body's orbital position stays in the y = 0 plane with
constant length `cos/sin` times its own code radius, and for Venus through
Pluto that radius is `radiusAU * auScale` as claimed; Mercury's radius
carries the extra `* 5 / 15` factor and the Moon orbits the Earth system at
`EARTH_RADIUS * 2.5`, so the claimed `radiusAU * auScale` length fails for
those two bodies. -/
theorem orbit_positions_circular (now : ℝ) :
    Vec3.length (mercuryOrbitPos now) = AU_SCALE * MERCURY_AU * 5 / 15 ∧
    (mercuryOrbitPos now).y = 0 ∧
    Vec3.length (venusOrbitPos now) = AU_SCALE * VENUS_AU ∧
    (venusOrbitPos now).y = 0 ∧
    Vec3.length (earthOrbitPos now) = AU_SCALE * EARTH_AU ∧
    (earthOrbitPos now).y = 0 ∧
    Vec3.length (moonOrbitPos now) = EARTH_RADIUS * 2.5 ∧
    (moonOrbitPos now).y = 0 ∧
    Vec3.length (marsOrbitPos now) = AU_SCALE * MARS_AU ∧
    (marsOrbitPos now).y = 0 ∧
    Vec3.length (jupiterOrbitPos now) = AU_SCALE * JUPITER_AU ∧
    (jupiterOrbitPos now).y = 0 ∧
    Vec3.length (saturnOrbitPos now) = AU_SCALE * SATURN_AU ∧
    (saturnOrbitPos now).y = 0 ∧
    Vec3.length (uranusOrbitPos now) = AU_SCALE * URANUS_AU ∧
    (uranusOrbitPos now).y = 0 ∧
    Vec3.length (neptuneOrbitPos now) = AU_SCALE * NEPTUNE_AU ∧
    (neptuneOrbitPos now).y = 0 ∧
    Vec3.length (plutoOrbitPos now) = AU_SCALE * PLUTO_AU ∧
    (plutoOrbitPos now).y = 0 := by
  refine ⟨?_, rfl, ?_, rfl, ?_, rfl, ?_, rfl, ?_, rfl, ?_, rfl, ?_, rfl,
    ?_, rfl, ?_, rfl, ?_, rfl⟩
  · rw [mercuryOrbitPos]
    exact length_circle (now * 0.0002) _ _ _
      (by norm_num [AU_SCALE, MERCURY_AU]) (by ring) (by ring)
  · rw [venusOrbitPos]
    exact length_circle (now * 0.00015) _ _ _
      (by norm_num [AU_SCALE, VENUS_AU]) (by ring) (by ring)
  · rw [earthOrbitPos]
    exact length_circle (now * 0.0001) _ _ _
      (by norm_num [AU_SCALE, EARTH_AU]) (by ring) (by ring)
  · rw [moonOrbitPos]
    exact length_circle (now * 0.0005) _ _ _
      (by norm_num [EARTH_RADIUS]) (by ring) (by ring)
  · rw [marsOrbitPos]
    exact length_circle (now * 0.00008) _ _ _
      (by norm_num [AU_SCALE, MARS_AU]) (by ring) (by ring)
  · rw [jupiterOrbitPos]
    exact length_circle (now * 0.00004) _ _ _
      (by norm_num [AU_SCALE, JUPITER_AU]) (by ring) (by ring)
  · rw [saturnOrbitPos]
    exact length_circle (now * 0.00003) _ _ _
      (by norm_num [AU_SCALE, SATURN_AU]) (by ring) (by ring)
  · rw [uranusOrbitPos]
    exact length_circle (now * 0.00002) _ _ _
      (by norm_num [AU_SCALE, URANUS_AU]) (by ring) (by ring)
  · rw [neptuneOrbitPos]
    exact length_circle (now * 0.000015) _ _ _
      (by norm_num [AU_SCALE, NEPTUNE_AU]) (by ring) (by ring)
  · rw [plutoOrbitPos]
    exact length_circle (now * 0.00001) _ _ _
      (by norm_num [AU_SCALE, PLUTO_AU]) (by ring) (by ring)

/-! ## Claim C2 -/

/-- C2 counterexample: with the stop flag held, the next advance still
mutates the ship position: the float effect overwrites position.y with
`sin(now * 0.001) * 2`, so a ship at y = 5 moves to y = 0 at time 0. -/
theorem ship_stop_mutates_y :
    (shipAdvancePos stopControls 0 ⟨0, 5, 0⟩ ⟨0, 0, -1⟩ ⟨-1, 0, 0⟩).y ≠
      (⟨0, 5, 0⟩ : Vec3).y := by
  simp only [shipAdvancePos, stopControls, floatAmount, Bool.not_true,
    Bool.and_false, Bool.false_and, if_false, Bool.false_eq_true, if_neg]
  norm_num [Real.sin_zero]

/-- C2 amended: with the stop flag held, the advance performs no forward and
no sideways translation (x and z are unchanged), but position.y is still
overwritten by the float effect with `sin(now * 0.001) * floatAmount`, so
the full position is not in general unchanged. -/
theorem ship_stop_no_translation (c : ShipControls) (now : ℝ)
    (pos direction rightDirection : Vec3) (hstop : c.stop = true) :
    (shipAdvancePos c now pos direction rightDirection).x = pos.x ∧
    (shipAdvancePos c now pos direction rightDirection).z = pos.z ∧
    (shipAdvancePos c now pos direction rightDirection).y =
      Real.sin (now * 0.001) * floatAmount c := by
  simp [shipAdvancePos, hstop]

/-- C2 witness: the amended statement at the concrete stop configuration. -/
theorem ship_stop_no_translation_witness :
    stopControls.stop = true ∧
    (shipAdvancePos stopControls 0 ⟨0, 5, 0⟩ ⟨0, 0, -1⟩ ⟨-1, 0, 0⟩).x =
      (⟨0, 5, 0⟩ : Vec3).x :=
  ⟨rfl, (ship_stop_no_translation stopControls 0 ⟨0, 5, 0⟩ ⟨0, 0, -1⟩
    ⟨-1, 0, 0⟩ rfl).1⟩

/-! ## Claim C7 -/

/-- C7: when not boosting the camera position is set exactly to the offset
transformed by the ship's world matrix (idempotently, so a stationary ship
leaves no residual lerp lag across consecutive calls); when boosting it is
lerped toward that target by 0.05; in both cases the look-at target is the
ship position. -/
theorem camera_follow_spec (camPos : Vec3) (m : Fin 16 → ℝ) (shipPos : Vec3) :
    (cameraFollow false camPos m shipPos).1 = cameraOffset.applyMatrix4 m ∧
    (cameraFollow false ((cameraFollow false camPos m shipPos).1) m
        shipPos).1 = cameraOffset.applyMatrix4 m ∧
    (cameraFollow true camPos m shipPos).1 =
      camPos.lerp (cameraOffset.applyMatrix4 m) 0.05 ∧
    (cameraFollow false camPos m shipPos).2 = shipPos ∧
    (cameraFollow true camPos m shipPos).2 = shipPos := by
  refine ⟨rfl, rfl, ?_, rfl, rfl⟩
  simp [cameraFollow]

/-! ## Claim C6 -/

/-- C6: in the per-frame advance (stop not held), an active rotation flag
makes the orientation slerp toward the composed target rotation by blend
factor 0.1, and with no rotation flag active it slerps toward the level
orientation (rebuilt from the current forward direction and world up) by
blend factor 0.02. -/
theorem rotation_blend_factors (slerp : Quat → Quat → ℝ → Quat)
    (levelQuat : Vec3 → Vec3 → Quat) (c : ShipControls) (cur : Quat)
    (direction rightDirection : Vec3) (hstop : c.stop = false) :
    rotationStep slerp levelQuat c cur direction rightDirection =
      if c.pitchUp || c.pitchDown || c.bankLeft || c.bankRight then
        slerp cur (targetRotation c cur direction rightDirection) 0.1
      else slerp cur (levelQuat direction ⟨0, 1, 0⟩) 0.02 := by
  unfold rotationStep needRotationUpdate
  rw [hstop]
  simp [Bool.or_assoc]

/-- C6 witness: the blend selection at a concrete pitch-up configuration. -/
theorem rotation_blend_factors_witness :
    pitchUpControls.stop = false ∧
    rotationStep fstSlerp constLevel pitchUpControls ⟨0, 0, 0, 1⟩
        ⟨0, 0, -1⟩ ⟨-1, 0, 0⟩ =
      if pitchUpControls.pitchUp || pitchUpControls.pitchDown ||
          pitchUpControls.bankLeft || pitchUpControls.bankRight then
        fstSlerp ⟨0, 0, 0, 1⟩
          (targetRotation pitchUpControls ⟨0, 0, 0, 1⟩ ⟨0, 0, -1⟩
            ⟨-1, 0, 0⟩) 0.1
      else fstSlerp ⟨0, 0, 0, 1⟩ (constLevel ⟨0, 0, -1⟩ ⟨0, 1, 0⟩) 0.02 :=
  ⟨rfl, rotation_blend_factors fstSlerp constLevel pitchUpControls
    ⟨0, 0, 0, 1⟩ ⟨0, 0, -1⟩ ⟨-1, 0, 0⟩ rfl⟩

/-! ## Claim C9 -/

/-- C9: the exhaust size multiplier easing curve is continuous at the
`lifeRatio = 0.2` boundary; its value there is 1, the limit from the left
is 1, and the rational-arithmetic curve used in the particle step agrees
with the real-valued one. -/
theorem size_multiplier_continuous :
    ContinuousAt sizeMultiplierR 0.2 ∧ sizeMultiplierR 0.2 = 1 ∧
    Filter.Tendsto sizeMultiplierR (nhdsWithin 0.2 (Set.Iio 0.2))
      (nhds 1) ∧
    ∀ q : ℚ, ((sizeMultiplier q : ℚ) : ℝ) = sizeMultiplierR (q : ℝ) := by
  have hmin : sizeMultiplierR = fun x => min (x * 5) (1 - (x - 0.2) * 1.25) := by
    funext x
    unfold sizeMultiplierR
    by_cases h : x < 0.2
    · rw [if_pos h, min_eq_left (by nlinarith)]
    · rw [if_neg h, min_eq_right (by push_neg at h; nlinarith)]
  have hcont : Continuous sizeMultiplierR := by
    rw [hmin]
    exact (continuous_id.mul continuous_const).min
      (continuous_const.sub
        ((continuous_id.sub continuous_const).mul continuous_const))
  have hval : sizeMultiplierR 0.2 = 1 := by norm_num [sizeMultiplierR]
  refine ⟨hcont.continuousAt, hval, ?_, ?_⟩
  · have h2 := (hcont.continuousAt).mono_left
      (nhdsWithin_le_nhds :
        nhdsWithin (0.2 : ℝ) (Set.Iio 0.2) ≤ nhds 0.2)
    rwa [hval] at h2
  · intro q
    have hcast : ((1/5 : ℚ) : ℝ) = 0.2 := by norm_num
    by_cases h : q < 1/5
    · have hR : (q : ℝ) < 0.2 := by rw [← hcast]; exact_mod_cast h
      rw [sizeMultiplier, sizeMultiplierR, if_pos h, if_pos hR]
      push_cast
      ring
    · have hR : ¬((q : ℝ) < 0.2) := by rw [← hcast]; exact_mod_cast h
      rw [sizeMultiplier, sizeMultiplierR, if_neg h, if_neg hR]
      push_cast
      norm_num
      try ring

/-! ## Claim C5 -/

/-- C5 counterexample: the sun eruption update does not clamp the frame
delta: stepping an alive surface particle with dt = 0.2 moves it to
x = 103, while dt = 0.1 moves it to x = 101.5, so a dt above 0.1 does not
produce the dt = 0.1 state. -/
theorem eruption_no_clamp_counterexample :
    (eruptionUpdate (1/5) zeroRng [sunParticle] 0).1.headI.pos.x = 103 ∧
    (eruptionUpdate (1/10) zeroRng [sunParticle] 0).1.headI.pos.x = 203/2 ∧
    (103 : ℝ) ≠ 203/2 := by
  refine ⟨?_, ?_, by norm_num⟩ <;>
    norm_num [eruptionUpdate, eruptionStepParticle, sunParticle, zeroRng]

/-- C5 amended: the delta clamp to 0.1 holds for the exhaust particle
update (any dt above 0.1 yields exactly the dt = 0.1 state, randomness and
other inputs fixed), but the sun eruption update integrates with the raw
dt: an alive particle advances by `velocity * dt * 15` and loses `dt` of
life however large dt is. -/
theorem dt_clamp_exhaust_only (cfg : ExConfig) (delta shipVelocity : ℚ)
    (isBoost : Bool) (dirs : Option (Vec3Q × Vec3Q × Vec3Q))
    (emitterL emitterR : Vec3Q) (rng : ℕ → ℚ) (ps : List ExParticle)
    (cnt k : ℕ) (deltaR : ℝ) (rngR : ℕ → ℝ) (p : ErParticle) (j : ℕ)
    (hdelta : 1/10 < delta) (halive : ¬(p.lifeCur - deltaR ≤ 0)) :
    exhaustUpdate cfg delta shipVelocity isBoost dirs emitterL emitterR
        rng ps cnt k =
      exhaustUpdate cfg (1/10) shipVelocity isBoost dirs emitterL emitterR
        rng ps cnt k ∧
    (eruptionStepParticle deltaR rngR p j).1.lifeCur =
      p.lifeCur - deltaR ∧
    (eruptionStepParticle deltaR rngR p j).1.pos.x =
      p.pos.x + p.vel.x * deltaR * 15 := by
  refine ⟨?_, ?_, ?_⟩
  · unfold exhaustUpdate
    rw [min_eq_right (le_of_lt hdelta), min_self]
  · rw [eruptionStepParticle]
    simp only [if_neg halive]
  · rw [eruptionStepParticle]
    simp only [if_neg halive]

/-- C5 witness: the amended statement at dt = 0.2 on the sample pool. -/
theorem dt_clamp_exhaust_only_witness :
    (1/10 : ℚ) < 1/5 ∧
    ¬(sunParticle.lifeCur - (1/5 : ℝ) ≤ 0) ∧
    exhaustUpdate shipExhaustConfig (1/5) 1 false none ⟨0, 0, 0⟩ ⟨0, 0, 0⟩
        zeroRngQ [sampleParticle] 0 0 =
      exhaustUpdate shipExhaustConfig (1/10) 1 false none ⟨0, 0, 0⟩
        ⟨0, 0, 0⟩ zeroRngQ [sampleParticle] 0 0 :=
  ⟨by norm_num, by norm_num [sunParticle],
   (dt_clamp_exhaust_only shipExhaustConfig (1/5) 1 false none ⟨0, 0, 0⟩
     ⟨0, 0, 0⟩ zeroRngQ [sampleParticle] 0 0 (1/5) zeroRng sunParticle 0
     (by norm_num) (by norm_num [sunParticle])).1⟩

/-! ## Claim C3 -/

/-- Helper: starting from a zero counter, the number of respawns in one
loop run is bounded by the budget. -/
theorem countRespawns_le_budget (A : ExArgs) (ps : List ExParticle) (k : ℕ)
    (hb : 0 ≤ A.budget) :
    (countRespawns (exhaustGo A ps 0 k).1 : ℤ) ≤ A.budget := by
  have h2 := exhaustGo_cnt_le A ps 0 k
  rw [exhaustGo_cnt A ps 0 k] at h2
  rw [Nat.zero_add] at h2
  rwa [Nat.cast_zero, max_eq_right hb] at h2

/-- C3: one update call with a non-negative ship speed respawns at most
`budget` particles across the two emitters combined, because the single
shared spawn counter starts at zero and is checked against the budget for
every particle of either emitter. -/
theorem exhaust_shared_spawn_budget (cfg : ExConfig)
    (delta shipVelocity : ℚ) (isBoost : Bool)
    (dirs : Option (Vec3Q × Vec3Q × Vec3Q)) (emitterL emitterR : Vec3Q)
    (rng : ℕ → ℚ) (ps : List ExParticle) (k : ℕ)
    (h : 0 ≤ shipVelocity) :
    (countRespawns (exhaustUpdate cfg delta shipVelocity isBoost dirs
        emitterL emitterR rng ps 0 k).1 : ℤ) ≤
      particlesPerEmitter shipVelocity isBoost := by
  unfold exhaustUpdate
  exact countRespawns_le_budget _ ps k (particlesPerEmitter_nonneg _ _ h)

/-- C3 witness: the budget bound at ship speed 1 on the sample pool. -/
theorem exhaust_shared_spawn_budget_witness :
    (0 : ℚ) ≤ 1 ∧
    (countRespawns (exhaustUpdate shipExhaustConfig (1/60) 1 false none
        ⟨0, 0, 0⟩ ⟨0, 0, 0⟩ zeroRngQ [sampleParticle] 0 0).1 : ℤ) ≤
      particlesPerEmitter 1 false :=
  ⟨by norm_num, exhaust_shared_spawn_budget shipExhaustConfig (1/60) 1
    false none ⟨0, 0, 0⟩ ⟨0, 0, 0⟩ zeroRngQ [sampleParticle] 0
    (by norm_num)⟩

/-! ## Claim C10 -/

/-- Helper: a run that marks every particle unspawned counts no respawns. -/
theorem countRespawns_map_false (f : ExParticle → ExParticle)
    (ps : List ExParticle) :
    countRespawns (ps.map fun p => (f p, false)) = 0 := by
  induction ps with
  | nil => simp [countRespawns]
  | cons p ps ih =>
    simp [countRespawns, List.filter_cons]

/-- Helper: advancing live particles and keeping dead ones untouched never
increases the live count. -/
theorem countP_live_advance_le (delta : ℚ) (ps : List ExParticle) :
    ((ps.map fun p => if p.maxLife ≤ p.life then p
        else advanceParticle delta p).countP fun p => isLive p) ≤
      ps.countP fun p => isLive p := by
  induction ps with
  | nil => simp
  | cons p ps ih =>
    simp only [List.map_cons, List.countP_cons]
    have hcase : (if isLive (if p.maxLife ≤ p.life then p
        else advanceParticle delta p) = true then 1 else 0) ≤
        (if isLive p = true then 1 else 0) := by
      by_cases hd : p.maxLife ≤ p.life
      · rw [if_pos hd]
      · rw [if_neg hd]
        have hlive : isLive p = true := by
          simpa [isLive] using lt_of_not_le hd
        rw [hlive]
        split_ifs <;> simp_all
    omega

/-- C10: an update call with ship speed 0 and boosting off has spawn budget
`min(1, ceil(0*0.5)) = 0`: no particle is respawned, every dead particle is
returned completely unchanged (age, position, velocity, color and size),
and the number of live particles cannot increase. -/
theorem exhaust_zero_speed_idle (cfg : ExConfig) (delta : ℚ)
    (dirs : Option (Vec3Q × Vec3Q × Vec3Q)) (emitterL emitterR : Vec3Q)
    (rng : ℕ → ℚ) (ps : List ExParticle) (k : ℕ) :
    countRespawns (exhaustUpdate cfg delta 0 false dirs emitterL emitterR
        rng ps 0 k).1 = 0 ∧
    (∀ (i : ℕ) (p : ExParticle), ps[i]? = some p → p.maxLife ≤ p.life →
      ((exhaustUpdate cfg delta 0 false dirs emitterL emitterR rng ps
          0 k).1)[i]? = some (p, false)) ∧
    (((exhaustUpdate cfg delta 0 false dirs emitterL emitterR rng ps
        0 k).1.map Prod.fst).countP fun p => isLive p) ≤
      ps.countP fun p => isLive p := by
  have hbudget : particlesPerEmitter 0 false = 0 := by
    norm_num [particlesPerEmitter]
  have hgo := exhaustGo_budget_nonpos
    { cfg := cfg, delta := min delta (1/10), shipVelocity := 0,
      dirs := dirs, emitterL := emitterL, emitterR := emitterR,
      budget := particlesPerEmitter 0 false, rng := rng }
    (show particlesPerEmitter 0 false ≤ 0 from le_of_eq hbudget) ps 0 k
  unfold exhaustUpdate
  rw [hgo]
  refine ⟨countRespawns_map_false _ ps, ?_, ?_⟩
  · intro i p hp hd
    simp [List.getElem?_map, hp, hd]
  · simp only [List.map_map]
    exact countP_live_advance_le _ ps

/-- C10 witness: the idle update on a one-particle pool holding a dead
particle. -/
theorem exhaust_zero_speed_idle_witness :
    countRespawns (exhaustUpdate shipExhaustConfig (1/60) 0 false none
        ⟨0, 0, 0⟩ ⟨0, 0, 0⟩ zeroRngQ [deadParticle] 0 0).1 = 0 ∧
    ((exhaustUpdate shipExhaustConfig (1/60) 0 false none ⟨0, 0, 0⟩
        ⟨0, 0, 0⟩ zeroRngQ [deadParticle] 0 0).1)[0]? =
      some (deadParticle, false) :=
  ⟨(exhaust_zero_speed_idle shipExhaustConfig (1/60) none ⟨0, 0, 0⟩
      ⟨0, 0, 0⟩ zeroRngQ [deadParticle] 0).1,
   (exhaust_zero_speed_idle shipExhaustConfig (1/60) none ⟨0, 0, 0⟩
      ⟨0, 0, 0⟩ zeroRngQ [deadParticle] 0).2.1 0 deadParticle rfl
     (by norm_num [deadParticle, sampleParticle])⟩

/-! ## Claim C4 -/

/-- Helper: a respawned particle has its life reset to exactly 0. -/
theorem respawnParticle_life (cfg : ExConfig) (shipVelocity : ℚ)
    (dirs : Option (Vec3Q × Vec3Q × Vec3Q)) (emitterPos : Vec3Q)
    (rng : ℕ → ℚ) (k : ℕ) (p : ExParticle) :
    (respawnParticle cfg shipVelocity dirs emitterPos rng k p).1.life = 0 := by
  rcases dirs with _ | ⟨⟨b, r, u⟩⟩ <;> simp [respawnParticle]

/-- Helper: full case analysis of one loop iteration: a respawn resets the
age to 0; a dead particle that is not respawned is returned unchanged; a
live particle ages by exactly the step delta and stays under
`maxLife + delta`. -/
theorem stepParticle_cases (A : ExArgs) (p : ExParticle) (c j : ℕ)
    (hdelta : 0 ≤ A.delta) (hage : 0 ≤ p.life) :
    0 ≤ (stepParticle A p c j).1.life ∧
    ((stepParticle A p c j).2.1 = true → (stepParticle A p c j).1.life = 0) ∧
    ((stepParticle A p c j).2.1 = false → p.maxLife ≤ p.life →
      (stepParticle A p c j).1 = p) ∧
    (p.life < p.maxLife →
      (stepParticle A p c j).2.1 = false ∧
      (stepParticle A p c j).1.life = p.life + A.delta ∧
      (stepParticle A p c j).1.life < p.maxLife + A.delta ∧
      (stepParticle A p c j).1.maxLife = p.maxLife) := by
  by_cases hd : p.maxLife ≤ p.life
  · by_cases hcnt : (c : ℤ) < A.budget
    · have h1 : (stepParticle A p c j).1 =
          (respawnParticle A.cfg A.shipVelocity A.dirs
            (if p.emitter then A.emitterR else A.emitterL) A.rng j p).1 := by
        simp [stepParticle, if_pos hd, if_pos hcnt]
      have h2 : (stepParticle A p c j).2.1 = true := by
        simp [stepParticle, if_pos hd, if_pos hcnt]
      have hlife := respawnParticle_life A.cfg A.shipVelocity A.dirs
        (if p.emitter then A.emitterR else A.emitterL) A.rng j p
      refine ⟨?_, ?_, ?_, ?_⟩
      · rw [h1, hlife]
      · intro _
        rw [h1]
        exact hlife
      · intro hf
        rw [h2] at hf
        exact absurd hf (by simp)
      · intro hlt
        exact absurd hlt (not_lt.mpr hd)
    · have h1 : (stepParticle A p c j).1 = p := by
        simp [stepParticle, if_pos hd, if_neg hcnt]
      have h2 : (stepParticle A p c j).2.1 = false := by
        simp [stepParticle, if_pos hd, if_neg hcnt]
      refine ⟨?_, ?_, ?_, ?_⟩
      · rw [h1]
        exact hage
      · intro ht
        rw [h2] at ht
        exact absurd ht (by simp)
      · intro _ _
        exact h1
      · intro hlt
        exact absurd hlt (not_lt.mpr hd)
  · have h1 : (stepParticle A p c j).1 = advanceParticle A.delta p := by
      simp [stepParticle, if_neg hd]
    have h2 : (stepParticle A p c j).2.1 = false := by
      simp [stepParticle, if_neg hd]
    have hlife : (advanceParticle A.delta p).life = p.life + A.delta := by
      simp [advanceParticle]
    have hmax : (advanceParticle A.delta p).maxLife = p.maxLife := by
      simp [advanceParticle]
    refine ⟨?_, ?_, ?_, ?_⟩
    · rw [h1, hlife]
      exact add_nonneg hage hdelta
    · intro ht
      rw [h2] at ht
      exact absurd ht (by simp)
    · intro _ hdead
      exact absurd hdead hd
    · intro hlt
      refine ⟨h2, by rw [h1, hlife], ?_, by rw [h1, hmax]⟩
      rw [h1, hlife]
      exact add_lt_add_right (lt_of_not_le hd) _

/-- C4 counterexample: after `clearAllParticles` (which forces every age to
`maxAge + 1`), a single update call with a zero spawn budget leaves the dead
particle's age at `maxAge + 1`, which exceeds its maxAge by 1 — more than
one clamped dt (at most 0.1) — so the claimed bound fails after that step. -/
theorem exhaust_age_bound_counterexample :
    (exhaustUpdate shipExhaustConfig (1/60) 0 false none ⟨0, 0, 0⟩
        ⟨0, 0, 0⟩ zeroRngQ
        (clearAllParticles ⟨0, 0, 0⟩ ⟨0, 0, 0⟩ [sampleParticle]) 0 0).1 =
      [({ sampleParticle with
          life := sampleParticle.maxLife + 1,
          pos := ⟨0, 0, 0⟩ }, false)] ∧
    ¬(sampleParticle.maxLife + 1 ≤
        sampleParticle.maxLife + min (1/60 : ℚ) (1/10)) := by
  constructor
  · have hd : sampleParticle.maxLife ≤ sampleParticle.maxLife + 1 := by
      norm_num
    have hc : ¬((0 : ℤ) < particlesPerEmitter 0 false) := by
      norm_num [particlesPerEmitter]
    simp [exhaustUpdate, exhaustGo, stepParticle, clearAllParticles,
      sampleParticle, hc]
  · norm_num [sampleParticle]

/-- C4 amended: after one update call, a particle's age is non-negative and
evolves in exactly one of three ways: reset to exactly 0 on respawn; kept
completely unchanged when dead and not respawned (in which case it can
exceed maxAge by more than one clamped dt, e.g. after `clearAllParticles`);
or increased by the clamped dt when alive, in which case it stays below
`maxAge + clamped dt`. -/
theorem exhaust_age_evolution (cfg : ExConfig) (delta shipVelocity : ℚ)
    (isBoost : Bool) (dirs : Option (Vec3Q × Vec3Q × Vec3Q))
    (emitterL emitterR : Vec3Q) (rng : ℕ → ℚ) (ps : List ExParticle)
    (cnt k i : ℕ) (p q : ExParticle) (f : Bool)
    (hdelta : 0 ≤ delta) (hage : 0 ≤ p.life) (hp : ps[i]? = some p)
    (hq : ((exhaustUpdate cfg delta shipVelocity isBoost dirs emitterL
        emitterR rng ps cnt k).1)[i]? = some (q, f)) :
    0 ≤ q.life ∧
    (f = true → q.life = 0) ∧
    (f = false → p.maxLife ≤ p.life → q = p) ∧
    (p.life < p.maxLife →
      f = false ∧ q.life = p.life + min delta (1/10) ∧
      q.life < p.maxLife + min delta (1/10) ∧ q.maxLife = p.maxLife) := by
  have hq' : ((exhaustGo
      { cfg := cfg, delta := min delta (1/10),
        shipVelocity := shipVelocity, dirs := dirs, emitterL := emitterL,
        emitterR := emitterR,
        budget := particlesPerEmitter shipVelocity isBoost, rng := rng }
      ps cnt k).1)[i]? = some (q, f) := hq
  obtain ⟨c, j, hc⟩ := exhaustGo_get
    { cfg := cfg, delta := min delta (1/10),
      shipVelocity := shipVelocity, dirs := dirs, emitterL := emitterL,
      emitterR := emitterR,
      budget := particlesPerEmitter shipVelocity isBoost, rng := rng }
    ps cnt k i p hp
  rw [hq'] at hc
  simp only [Option.some_inj, Prod.mk.injEq] at hc
  obtain ⟨hcq, hcf⟩ := hc
  have hstep := stepParticle_cases
    { cfg := cfg, delta := min delta (1/10),
      shipVelocity := shipVelocity, dirs := dirs, emitterL := emitterL,
      emitterR := emitterR,
      budget := particlesPerEmitter shipVelocity isBoost, rng := rng }
    p c j (le_min hdelta (by norm_num)) hage
  subst hcq
  subst hcf
  exact hstep

/-- C4 witness: the amended statement on a live one-particle pool. -/
theorem exhaust_age_evolution_witness :
    (0 : ℚ) ≤ 1/60 ∧
    0 ≤ (advanceParticle (min (1/60 : ℚ) (1/10)) sampleParticle).life :=
  ⟨by norm_num,
   (exhaust_age_evolution shipExhaustConfig (1/60) 1 false none ⟨0, 0, 0⟩
     ⟨0, 0, 0⟩ zeroRngQ [sampleParticle] 0 0 0 sampleParticle
     (advanceParticle (min (1/60 : ℚ) (1/10)) sampleParticle) false
     (by norm_num) (by norm_num [sampleParticle]) rfl
     (by
       have hd : ¬(sampleParticle.maxLife ≤ sampleParticle.life) := by
         norm_num [sampleParticle]
       simp [exhaustUpdate, exhaustGo, stepParticle, hd])).1⟩

/-! ## Claim C8 -/

/-- Helper: pointwise description of the eruption update: the i-th output
particle is the per-particle step of the i-th input particle at some random
stream index. -/
theorem eruptionUpdate_get (delta : ℝ) (rng : ℕ → ℝ) :
    ∀ (ps : List ErParticle) (k0 i : ℕ) (p : ErParticle),
      ps[i]? = some p →
      ∃ k, ((eruptionUpdate delta rng ps k0).1)[i]? =
        some ((eruptionStepParticle delta rng p k).1) := by
  intro ps
  induction ps with
  | nil => intro k0 i p h; simp at h
  | cons q qs ih =>
    intro k0 i p h
    cases i with
    | zero =>
      simp only [List.getElem?_cons_zero, Option.some_inj] at h
      subst h
      exact ⟨k0, by simp [eruptionUpdate]⟩
    | succ n =>
      simp only [List.getElem?_cons_succ] at h
      obtain ⟨k, hk⟩ := ih ((eruptionStepParticle delta rng q k0).2) n p h
      exact ⟨k, by simpa [eruptionUpdate] using hk⟩

/-- C8: each eruption update decrements every particle's remaining life by
the raw dt; a particle whose life reaches or passes 0 is respawned on the
radius-100 sphere (as the image of the uniform draws under the standard
spherical parameterization) with purely radial velocity
`0.01 * position` and a fresh lifetime in [1, 4); every other particle
advances by `velocity * dt * 15`, keeps its velocity and maxLife, and gets
size `(2 + random()*3) * lifeRatio`, proportional to its remaining-life
ratio. -/
theorem eruption_step_lifecycle (delta : ℝ) (rng : ℕ → ℝ)
    (ps : List ErParticle) (k0 i : ℕ) (p q : ErParticle)
    (hrng : ∀ n, 0 ≤ rng n ∧ rng n < 1)
    (hp : ps[i]? = some p)
    (hq : ((eruptionUpdate delta rng ps k0).1)[i]? = some q) :
    ∃ k, q = (eruptionStepParticle delta rng p k).1 ∧
      (p.lifeCur - delta ≤ 0 →
        q.lifeCur = q.lifeMax ∧ q.lifeMax = 1 + rng (k+2) * 3 ∧
        1 ≤ q.lifeMax ∧ q.lifeMax < 4 ∧
        Vec3.length q.pos = 100 ∧
        q.vel.x = q.pos.x * 0.01 ∧ q.vel.y = q.pos.y * 0.01 ∧
        q.vel.z = q.pos.z * 0.01) ∧
      (¬(p.lifeCur - delta ≤ 0) →
        q.lifeCur = p.lifeCur - delta ∧ q.lifeMax = p.lifeMax ∧
        q.pos.x = p.pos.x + p.vel.x * delta * 15 ∧
        q.pos.y = p.pos.y + p.vel.y * delta * 15 ∧
        q.pos.z = p.pos.z + p.vel.z * delta * 15 ∧
        q.size = (2 + rng k * 3) * ((p.lifeCur - delta) / p.lifeMax) ∧
        q.vel = p.vel) := by
  obtain ⟨k, hk⟩ := eruptionUpdate_get delta rng ps k0 i p hp
  rw [hq] at hk
  simp only [Option.some_inj] at hk
  refine ⟨k, hk, ?_, ?_⟩
  · intro hdead
    have hq1 : q = (eruptionStepParticle delta rng p k).1 := hk
    rw [eruptionStepParticle] at hq1
    rw [if_pos hdead] at hq1
    subst hq1
    obtain ⟨hr0, hr1⟩ := hrng (k+2)
    refine ⟨rfl, rfl, by nlinarith, by nlinarith, ?_, rfl, rfl, rfl⟩
    exact length_sphere (Real.arccos (2 * rng (k+1) - 1))
      (rng k * Real.pi * 2)
  · intro halive
    have hq1 : q = (eruptionStepParticle delta rng p k).1 := hk
    rw [eruptionStepParticle] at hq1
    rw [if_neg halive] at hq1
    subst hq1
    exact ⟨rfl, rfl, rfl, rfl, rfl, rfl, rfl⟩

/-- C8 witness: the lifecycle statement on a one-particle pool with the
degenerate random stream. -/
theorem eruption_step_lifecycle_witness :
    (∀ n, 0 ≤ zeroRng n ∧ zeroRng n < 1) ∧
    (∃ k, (eruptionStepParticle (1/60) zeroRng sunParticle 0).1 =
        (eruptionStepParticle (1/60) zeroRng sunParticle k).1 ∧
      (sunParticle.lifeCur - (1/60 : ℝ) ≤ 0 →
        (eruptionStepParticle (1/60) zeroRng sunParticle 0).1.lifeCur =
          (eruptionStepParticle (1/60) zeroRng sunParticle 0).1.lifeMax ∧
        (eruptionStepParticle (1/60) zeroRng sunParticle 0).1.lifeMax =
          1 + zeroRng (k+2) * 3 ∧
        1 ≤ (eruptionStepParticle (1/60) zeroRng sunParticle 0).1.lifeMax ∧
        (eruptionStepParticle (1/60) zeroRng sunParticle 0).1.lifeMax < 4 ∧
        Vec3.length
          (eruptionStepParticle (1/60) zeroRng sunParticle 0).1.pos = 100 ∧
        (eruptionStepParticle (1/60) zeroRng sunParticle 0).1.vel.x =
          (eruptionStepParticle (1/60) zeroRng sunParticle 0).1.pos.x *
            0.01 ∧
        (eruptionStepParticle (1/60) zeroRng sunParticle 0).1.vel.y =
          (eruptionStepParticle (1/60) zeroRng sunParticle 0).1.pos.y *
            0.01 ∧
        (eruptionStepParticle (1/60) zeroRng sunParticle 0).1.vel.z =
          (eruptionStepParticle (1/60) zeroRng sunParticle 0).1.pos.z *
            0.01) ∧
      (¬(sunParticle.lifeCur - (1/60 : ℝ) ≤ 0) →
        (eruptionStepParticle (1/60) zeroRng sunParticle 0).1.lifeCur =
          sunParticle.lifeCur - 1/60 ∧
        (eruptionStepParticle (1/60) zeroRng sunParticle 0).1.lifeMax =
          sunParticle.lifeMax ∧
        (eruptionStepParticle (1/60) zeroRng sunParticle 0).1.pos.x =
          sunParticle.pos.x + sunParticle.vel.x * (1/60) * 15 ∧
        (eruptionStepParticle (1/60) zeroRng sunParticle 0).1.pos.y =
          sunParticle.pos.y + sunParticle.vel.y * (1/60) * 15 ∧
        (eruptionStepParticle (1/60) zeroRng sunParticle 0).1.pos.z =
          sunParticle.pos.z + sunParticle.vel.z * (1/60) * 15 ∧
        (eruptionStepParticle (1/60) zeroRng sunParticle 0).1.size =
          (2 + zeroRng k * 3) *
            ((sunParticle.lifeCur - 1/60) / sunParticle.lifeMax) ∧
        (eruptionStepParticle (1/60) zeroRng sunParticle 0).1.vel =
          sunParticle.vel)) :=
  ⟨fun n => ⟨le_refl 0, by norm_num [zeroRng]⟩,
   eruption_step_lifecycle (1/60) zeroRng [sunParticle] 0 0 sunParticle
     ((eruptionStepParticle (1/60) zeroRng sunParticle 0).1)
     (fun n => ⟨le_refl 0, by norm_num [zeroRng]⟩) rfl
     (by simp [eruptionUpdate])⟩
